import Mathlib

/-!
Verification of the nfl-data-loader player rating engine against its
natural-language specification.  Definitions are shallow embeddings of the
Python sources under src/nfl_data_loader; numeric values (Python floats)
are modelled as rationals, except where a square root forces the reals.
Fallible Python code (code that can raise) is modelled with Except.
-/

/-! ## Python numeric primitives -/

/-- Python int() applied to a float: truncation toward zero.
For a nonnegative rational this is the floor. -/
def pyInt (q : ℚ) : ℤ := if 0 ≤ q then ⌊q⌋ else ⌈q⌉

/-- numpy clip(x, lo, hi) = min hi (max lo x). -/
def npClip (x lo hi : ℚ) : ℚ := min hi (max lo x)

/-- numpy sign: 1 for positive, -1 for negative, 0 for zero. -/
def npSign (q : ℚ) : ℚ := if 0 < q then 1 else if q < 0 then -1 else 0

/-- Python dict lookup d.get(k): first binding of the key, if present
(association lists model Python dicts; keys are unique by construction). -/
def dictGet (m : List (String × ℚ)) (k : String) : Option ℚ :=
  (m.find? (fun p => p.1 == k)).map (fun p => p.2)

/-- Python `k in d` membership test for the dict model. -/
def dictMem (m : List (String × ℚ)) (k : String) : Bool :=
  m.any (fun p => p.1 == k)

/-- Python `d[a] = d.get(a, 0) + delta`: update the binding in place,
or append a new binding at the end (dict insertion order). -/
def dictAdd (m : List (String × ℚ)) (a : String) (d : ℚ) : List (String × ℚ) :=
  if m.any (fun p => p.1 == a) then
    m.map (fun p => if p.1 == a then (p.1, p.2 + d) else p)
  else
    m ++ [(a, d)]

/-! ## PlayerRatingState
(src/nfl_data_loader/workflows/components/players/classes/player_rating_state.py)

The dataclass has string/bool/int identity fields plus 30 float skill
attributes.  The skill attributes are modelled as a name-indexed map
`vals`, meaningful on `madden_skill_fields` (the dataclass field names);
this mirrors the dynamic getattr/fields access the update engine uses. -/

/-- The 30 float skill-attribute fields of the PlayerRatingState dataclass,
in declaration order.  Note: the dataclass has NO overallrating field. -/
def madden_skill_fields : List String :=
  ["agility", "acceleration", "speed", "stamina", "strength", "toughness",
   "injury", "awareness", "jumping", "trucking", "carrying",
   "ballcarriervision", "stiffarm", "spinmove", "jukemove", "throwpower",
   "throwaccuracyshort", "throwaccuracymid", "throwaccuracydeep",
   "playaction", "throwonrun", "catching", "shortrouterunning",
   "midrouterunning", "deeprouterunning", "spectacularcatch",
   "catchintraffic", "release", "runblocking", "passblocking"]

/-- Default values of the skill fields in the dataclass: 70 for the
general physical/mental fields declared first, 0 for the rest. -/
def player_rating_default (f : String) : ℚ :=
  if f ∈ ["agility", "acceleration", "speed", "stamina", "strength",
          "toughness", "injury", "awareness", "jumping"] then 70 else 0

structure PlayerRatingState where
  player_id : String := ""
  madden_id : String := ""
  years_exp : ℤ := 0
  is_rookie : Bool := false
  rating : ℚ := 70
  last_season_av : ℚ := 4
  baseoverallrating : ℚ := 70
  vals : String → ℚ := player_rating_default

/-- getattr(state, a) for the dynamically accessed skill attributes.
Returns none when `a` is not a dataclass field (Python: AttributeError);
every name reachable from the metric maps other than overallrating is a
skill field, so the non-skill scalar fields never occur here. -/
def get_attr (s : PlayerRatingState) (a : String) : Option ℚ :=
  if a ∈ madden_skill_fields then some (s.vals a) else none

/-- new_vals[a] = v for a skill field (dict write-back into the state). -/
def set_attr (s : PlayerRatingState) (a : String) (v : ℚ) : PlayerRatingState :=
  { s with vals := fun f => if f = a then v else s.vals f }

/-! ## Decay buckets (weekly_player_rating.py lines 10-23) -/

def physical_bucket : List String :=
  ["speed", "acceleration", "agility", "strength", "jumping", "stamina"]

def technical_bucket : List String :=
  ["throwpower", "throwaccuracyshort", "throwaccuracymid", "throwaccuracydeep",
   "ballcarriervision", "trucking", "carrying", "stiffarm", "spinmove",
   "jukemove", "catching", "spectacularcatch", "catchintraffic", "release",
   "shortrouterunning", "midrouterunning", "deeprouterunning"]

def mental_bucket : List String := ["awareness", "toughness", "injury"]

/-- next((b for b, s in ATTRIBUTE_BUCKET.items() if attr in s), "technical"):
first bucket (dict order physical, technical, mental) containing the
attribute, defaulting to technical. -/
def attribute_bucket_of (a : String) : String :=
  if a ∈ physical_bucket then "physical"
  else if a ∈ technical_bucket then "technical"
  else if a ∈ mental_bucket then "mental"
  else "technical"

/-- DECAY_BY_BUCKET lookup. The 0 branch is unreachable: attribute_bucket_of
only yields the three bucket names. -/
def decay_by_bucket (b : String) : ℚ :=
  if b = "physical" then 95/100
  else if b = "technical" then 85/100
  else if b = "mental" then 90/100
  else 0

/-- adj_val = delta * (1 - decay) for the attribute (lines 121-123). -/
def applied_change (a : String) (delta : ℚ) : ℚ :=
  delta * (1 - decay_by_bucket (attribute_bucket_of a))

/-- new_vals[attr] = int(np.clip(cur + adj_val, 0, 99)) (line 125). -/
def new_value (a : String) (cur delta : ℚ) : ℤ :=
  pyInt (npClip (cur + applied_change a delta) 0 99)

/-! ## Metric to attribute maps (weekly_player_rating.py lines 29-61) -/

def UNIVERSAL_METRIC_MAP : List (String × List String) :=
  [("epa", ["awareness"]),
   ("total_plays", ["stamina"]),
   ("total_turnovers", ["carrying", "awareness"])]

def POSITION_METRIC_MAP : List (String × List (String × List String)) :=
  [("QB",
    [("completion_percentage",
      ["throwaccuracyshort", "throwaccuracymid", "throwaccuracydeep"]),
     ("yards_per_pass_attempt", ["throwpower"]),
     ("interceptions", ["awareness"]),
     ("sack_rate", ["awareness"]),
     ("passing_epa", ["overallrating"])]),
   ("WR",
    [("yards_per_route",
      ["shortrouterunning", "midrouterunning", "deeprouterunning"]),
     ("catch_percentage", ["catching", "catchintraffic"]),
     ("target_share", ["release"]),
     ("receiving_yards_after_catch", ["jukemove", "spectacularcatch"])]),
   ("TE",
    [("yards_per_route",
      ["shortrouterunning", "midrouterunning", "deeprouterunning"]),
     ("catch_percentage", ["catching", "catchintraffic"]),
     ("target_share", ["release"]),
     ("receiving_yards_after_catch", ["jukemove", "spectacularcatch"])]),
   ("RB",
    [("yards_per_rush_attempt", ["ballcarriervision", "speed", "acceleration"]),
     ("broken_tackles", ["trucking", "stiffarm", "jukemove", "spinmove"]),
     ("rushing_fumbles_lost", ["carrying"]),
     ("rushing_epa", ["overallrating"])])]

/-- POSITION_METRIC_MAP.get(position, empty dict). -/
def position_metric_map_get (pos : String) : List (String × List String) :=
  ((POSITION_METRIC_MAP.find? (fun p => p.1 == pos)).map (fun p => p.2)).getD []

/-- The fixed position-specific weight tables of _position_weights
(weekly_player_rating.py lines 135-171). -/
def position_weights (pos : String) : List (String × ℚ) :=
  if pos = "QB" then
    [("throwpower", 15/100), ("throwaccuracyshort", 15/100),
     ("throwaccuracymid", 15/100), ("throwaccuracydeep", 15/100),
     ("awareness", 15/100), ("playaction", 10/100), ("throwonrun", 10/100),
     ("stamina", 5/100)]
  else if pos = "WR" ∨ pos = "TE" then
    [("catching", 20/100), ("shortrouterunning", 15/100),
     ("midrouterunning", 15/100), ("deeprouterunning", 15/100),
     ("spectacularcatch", 10/100), ("catchintraffic", 10/100),
     ("release", 10/100), ("speed", 5/100)]
  else if pos = "RB" then
    [("ballcarriervision", 20/100), ("speed", 15/100), ("acceleration", 15/100),
     ("agility", 15/100), ("trucking", 10/100), ("carrying", 10/100),
     ("stiffarm", 5/100), ("jukemove", 5/100), ("spinmove", 5/100)]
  else []

/-! ## Data frames
A pandas DataFrame of a cohort view: a list of column names and a list of
rows, each row a total map from column name to (rational) value. -/

@[ext] structure Frame where
  cols : List String
  rows : List (String → ℚ)

/-! ## PlayerPositionGroupRatingMatrix
(src/nfl_data_loader/workflows/components/players/classes/player_rating_matrix.py)

The last three fields are oracles.  Modelled from the spec: the methods
calculate_rating and _normalize_metric and the class attribute
NEGATIVE_METRICS are referenced by WeeklyPlayerRating
(weekly_player_rating.py lines 91-96) but are defined nowhere in the
repository sources.  Following the spec, calculate_rating is the scalar
cohort-performance signal for the player, _normalize_metric gives a
metric value its normalized (z) value, and NEGATIVE_METRICS is the set of
metrics whose lower raw value is better. -/

structure PlayerPositionGroupRatingMatrix where
  position_group : String := ""
  validation_requirement : List (String × ℚ) := []
  adjustment_fields : List (String × String) := []
  rating_attribute_stat_map : List (String × List String) := []
  season_metrics : Frame := ⟨[], []⟩
  form_metrics : Frame := ⟨[], []⟩
  calculate_rating : ℚ := 0
  normalize_metric : String → ℚ → ℚ := fun _ v => v
  negative_metrics : String → Bool := fun _ => false

/-! ## PlayerState and WeeklyPlayerRating
(player_state.py; weekly_player_rating.py lines 63-133) -/

structure PlayerState where
  player_id : String := ""
  game_id : ℤ := 0
  season : ℤ := 0
  week : ℤ := 0
  team : String := ""
  high_pos_group : String := ""
  position_group : String := ""
  position : String := ""
  starter : Bool := false
  status : String := ""
  report_status : String := ""
  playerverse_status : String := ""

structure WeeklyPlayerRating extends PlayerState where
  pre_rating : PlayerRatingState
  performance_metrics : List (String × ℚ) := []
  rating_matrix : Option PlayerPositionGroupRatingMatrix := none
  post_rating : Option PlayerRatingState := none

/-- MAX_WEEKLY_ADJ class constant (weekly_player_rating.py line 71). -/
def MAX_WEEKLY_ADJ : ℚ := 3

/-- _metric_factor (lines 87-93): the normalized value of a performance
metric, sign-flipped for metrics in the negative set; 0 when the metric
is absent or the rating matrix is absent. -/
def metric_factor (w : WeeklyPlayerRating) (metric : String) : ℚ :=
  match dictGet w.performance_metrics metric, w.rating_matrix with
  | none, _ => 0
  | _, none => 0
  | some v, some m =>
      let norm := m.normalize_metric metric v
      if m.negative_metrics metric then -norm else norm

/-- base_adj = np.sign(perf_score) * min(MAX_WEEKLY_ADJ, abs(perf_score)*10)
(line 97), as a function of the scalar cohort score. -/
def base_adjustment (s : ℚ) : ℚ := npSign s * min MAX_WEEKLY_ADJ (|s| * 10)

/-- Accumulate one metric map into the adjustment dict (the inner loops of
_calculate_adjustments, lines 100-115): for every mapped metric present in
performance_metrics, add base_adj * metric_factor into each target
attribute. -/
def accumulate_metric_map (w : WeeklyPlayerRating) (base_adj : ℚ)
    (mmap : List (String × List String)) (adj : List (String × ℚ)) :
    List (String × ℚ) :=
  mmap.foldl (fun adj p =>
    if dictMem w.performance_metrics p.1 then
      let delta := base_adj * metric_factor w p.1
      p.2.foldl (fun adj a => dictAdd adj a delta) adj
    else adj) adj

/-- _calculate_adjustments (lines 95-116). -/
def calculate_adjustments (w : WeeklyPlayerRating) : List (String × ℚ) :=
  let perf_score := match w.rating_matrix with
    | some m => m.calculate_rating
    | none => 0
  let base_adj := base_adjustment perf_score
  let adj := accumulate_metric_map w base_adj UNIVERSAL_METRIC_MAP []
  accumulate_metric_map w base_adj (position_metric_map_get w.position) adj

/-- The per-attribute loop of _apply_adjustments (lines 120-125).
cur = getattr(self.pre_rating, attr) raises AttributeError when attr is
not a PlayerRatingState field (in particular for overallrating, a target
of the QB and RB metric maps). -/
def apply_adjustments_loop (pre : PlayerRatingState) :
    PlayerRatingState → List (String × ℚ) → Except String PlayerRatingState
  | st, [] => Except.ok st
  | st, (a, delta) :: rest =>
      match get_attr pre a with
      | none => Except.error "AttributeError"
      | some cur =>
          apply_adjustments_loop pre
            (set_attr st a ((new_value a cur delta : ℤ) : ℚ)) rest

/-- _apply_adjustments (lines 118-133).  After the attribute loop, a
position with a weight table writes new_vals[overallrating]; since the
PlayerRatingState dataclass has no overallrating field, the final
PlayerRatingState(**new_vals) construction raises TypeError (the computed
overall value is discarded by the raise and so is not modelled). -/
def apply_adjustments (pre : PlayerRatingState) (pos : String)
    (adj : List (String × ℚ)) : Except String PlayerRatingState :=
  match apply_adjustments_loop pre pre adj with
  | Except.error e => Except.error e
  | Except.ok st =>
      if position_weights pos = [] then
        Except.ok st
      else
        Except.error "TypeError: unexpected keyword argument overallrating"

/-- apply (lines 82-84): compute the adjustments and produce post_rating. -/
def apply_weekly (w : WeeklyPlayerRating) : Except String PlayerRatingState :=
  apply_adjustments w.pre_rating w.position (calculate_adjustments w)

/-! ## Cohort validation (player_rating_matrix.py lines 89-95)
For every (raw_field, min_val) requirement and each of the two views
(prefixes season_avg_ and form_), drop the rows whose value in the
prefixed column is below the threshold, when that column exists. -/

def apply_validation_view (req : List (String × ℚ)) (pfx : String)
    (f : Frame) : Frame :=
  req.foldl (fun acc p =>
    if (pfx ++ p.1) ∈ acc.cols then
      { acc with rows := acc.rows.filter (fun r => !decide (r (pfx ++ p.1) < p.2)) }
    else acc) f

/-- The conjunction of all threshold conditions of one validation pass:
a row survives every (field, min) requirement whose prefixed column is
present when its value is not below the threshold. -/
def valid_pred (req : List (String × ℚ)) (pfx : String) (cols : List String)
    (r : String → ℚ) : Bool :=
  req.all (fun p =>
    if (pfx ++ p.1) ∈ cols then !decide (r (pfx ++ p.1) < p.2) else true)

/-- _apply_validation: the requirement loop touches the season view with
the season_avg_ prefix and the form view with the form_ prefix; the two
views are distinct frames, so the interleaved loop equals one pass per
view. -/
def apply_validation (m : PlayerPositionGroupRatingMatrix) :
    PlayerPositionGroupRatingMatrix :=
  { m with
    season_metrics :=
      apply_validation_view m.validation_requirement "season_avg_" m.season_metrics
    form_metrics :=
      apply_validation_view m.validation_requirement "form_" m.form_metrics }

/-! ## Cohort z-score normalization (player_rating_matrix.py lines 97-113) -/

/-- Column mean (pandas mean; an empty column gives 0/0 = 0 where pandas
gives NaN, which the code treats through the isnan guard as the zero
branch). -/
def list_mean (xs : List ℚ) : ℚ := xs.sum / xs.length

/-- Population variance, divisor N (pandas std(ddof=0) squared). -/
def pop_var (xs : List ℚ) : ℚ :=
  (xs.map (fun x => (x - list_mean xs)^2)).sum / xs.length

/-- Population standard deviation std(ddof=0). -/
noncomputable def pop_std (xs : List ℚ) : ℝ := Real.sqrt (pop_var xs)

/-- The per-column body of _zscore_adjustment: z = (x - mean)/std with
population std; if std is 0 (or undefined: empty or all-missing column,
NaN in pandas, std 0 here) every z is 0; a negative-direction metric
negates z. -/
noncomputable def zscore_adjust_column (direction : String) (xs : List ℚ) :
    List ℝ :=
  let m := list_mean xs
  let s := pop_std xs
  let z := if s = 0 then xs.map (fun _ => (0:ℝ))
           else xs.map (fun x => (Rat.cast x - Rat.cast m) / s)
  if direction = "negative" then z.map (fun v => -v) else z

/-! ## Attribute deltas (player_rating_matrix.py lines 51-152) -/

/-- The z-scoring of a Madden attribute column of pre_ratings_df in
_compute_attribute_deltas (line 134-136): (col - mean)/(std(ddof=0) or 1),
the Python `or` turning a zero std into divisor 1. -/
noncomputable def attr_zscore (pre : Frame) (a : String) : List ℝ :=
  let col := pre.rows.map (fun r => r a)
  let m := list_mean col
  let s := pop_std col
  col.map (fun x => (Rat.cast x - Rat.cast m) / (if s = 0 then 1 else s))

/-- _compute_attribute_deltas (lines 115-152).  Takes ONLY pre_ratings_df:
there is no view-selection parameter, and the season view is read
unconditionally (line 140).  For each mapped attribute, the mean of the
present season_avg_ stat columns minus the attribute z; an attribute none
of whose stat columns is present keeps the NaN-initialized column,
modelled as none.  Rows of the season view and of pre_ratings_df are
positionally aligned (pandas aligns both on the player_id index; the
orchestrator builds them from the same cohort). -/
noncomputable def compute_attribute_deltas_inner
    (m : PlayerPositionGroupRatingMatrix) (pre : Frame) :
    List (String × List (Option ℝ)) :=
  m.rating_attribute_stat_map.map (fun p =>
    let stat_cols := (p.2.map (fun s => "season_avg_" ++ s)).filter
      (fun c => decide (c ∈ m.season_metrics.cols))
    if stat_cols = [] then
      (p.1, m.season_metrics.rows.map (fun _ => (none : Option ℝ)))
    else
      let stat_z := m.season_metrics.rows.map (fun r => list_mean (stat_cols.map r))
      (p.1, List.zipWith (fun sz az => some (((sz : ℚ) : ℝ) - az))
        stat_z (attr_zscore pre p.1)))

/-- compute_attribute_deltas (lines 51-83).  The body begins with
self._compute_attribute_deltas(pre_ratings_df, which="season"); the
helper accepts no such keyword (lines 115-118), so every call raises
TypeError before any delta or weight is used.  The parameters are kept
for the signature; none can influence the outcome. -/
def compute_attribute_deltas (_m : PlayerPositionGroupRatingMatrix)
    (_pre : Frame) (_season_weight : ℚ) :
    Except String (List (String × List (Option ℝ))) :=
  Except.error "TypeError: unexpected keyword argument which"

/-! ## Career timeline (career_player_rating.py, static_player.py) -/

structure StaticPlayer where
  player_id : String := ""
  name : String := ""
  first_name : String := ""
  last_name : String := ""
  pfr_id : Option String := none
  espn_id : Option ℤ := none
  birth_date : Option String := none
  height : Option ℤ := none
  weight : Option ℤ := none
  headshot : Option String := none
  college_name : Option String := none
  college_conference : Option String := none
  rookie_season : Option ℤ := none
  draft_year : Option ℤ := none
  draft_round : Option ℤ := none
  draft_pick : Option ℤ := none
  draft_team : Option String := none
  forty : Option ℚ := none
  bench : Option ℤ := none
  vertical : Option ℚ := none
  broad_jump : Option ℤ := none
  cone : Option ℚ := none
  shuttle : Option ℚ := none

structure CareerPlayerRating extends StaticPlayer where
  weekly_player_ratings : List WeeklyPlayerRating := []
  init_player_rating_state : Option PlayerRatingState := none
  init_season : Option ℤ := none
  init_week : Option ℤ := none
  last_updated_season : Option ℤ := none
  last_updated_week : Option ℤ := none

/-- current_rating (career_player_rating.py lines 19-24): none when the
list is empty, else the last appended weekly rating. -/
def current_rating (c : CareerPlayerRating) : Option WeeklyPlayerRating :=
  c.weekly_player_ratings.getLast?

/-- The pre-rating selection of PlayerRatingComponent.run_pipeline
(rating.py line 220): the init state when no weekly rating exists yet,
otherwise current_rating.pre_rating. -/
def select_pre_rating (c : CareerPlayerRating) : Option PlayerRatingState :=
  match current_rating c with
  | none => c.init_player_rating_state
  | some w => some w.pre_rating

/-! ## Preseason regression-to-mean
(workflows/transforms/players/player.py lines 17-67 and 278-317) -/

/-- MADDEN_FEATURES (player.py lines 17-67): every Madden-style attribute
column, overallrating included. -/
def MADDEN_FEATURES : List String :=
  ["overallrating", "agility", "acceleration", "speed", "stamina",
   "strength", "toughness", "injury", "awareness", "jumping", "trucking",
   "throwpower", "throwaccuracyshort", "throwaccuracymid",
   "throwaccuracydeep", "playaction", "throwonrun", "carrying",
   "ballcarriervision", "stiffarm", "spinmove", "jukemove", "catching",
   "shortrouterunning", "midrouterunning", "deeprouterunning",
   "spectacularcatch", "catchintraffic", "release", "runblocking",
   "passblocking", "impactblocking", "mancoverage", "zonecoverage",
   "tackle", "hitpower", "press", "pursuit", "kickaccuracy", "kickpower",
   "return"]

/-- One row of the preseason ratings frame entering
_simple_adjust_preseason_ratings; the Madden attribute columns are the
name-indexed map `madden` over MADDEN_FEATURES. -/
structure PreseasonRow where
  position_group : String := ""
  is_rookie : Bool := false
  last_season_av : Option ℚ := none
  madden : String → ℚ := fun _ => 0

/-- pandas column min (empty column unreachable in the modelled paths). -/
def col_min : List ℚ → ℚ
  | [] => 0
  | x :: xs => xs.foldl min x

/-- pandas column max. -/
def col_max : List ℚ → ℚ
  | [] => 0
  | x :: xs => xs.foldl max x

/-- 6 * (x - min) / (max - min) - 3: the min-max rescale of a cohort
column onto [-3, 3] (player.py lines 294 and 298). -/
def minmax_standardize (xs : List ℚ) (x : ℚ) : ℚ :=
  6 * (x - col_min xs) / (col_max xs - col_min xs) - 3

/-- pandas Series.clip(-3, 3). -/
def clip3 (q : ℚ) : ℚ := min 3 (max (-3) q)

/-- The fit-for-adjustment sub-frame: non-rookies with a last_season_av
value (player.py line 291). -/
def fit_rows (g : List PreseasonRow) : List PreseasonRow :=
  g.filter (fun r => !r.is_rookie && r.last_season_av.isSome)

/-- madden_adjustment for a fit row (player.py lines 293-302):
clip(mean of the standardized adjustment features - standardized
overallrating, -3, 3); the adjustment feature list is exactly
[last_season_av], so the row mean runs over that one standardized
value. -/
def preseason_adjustment (g : List PreseasonRow) (r : PreseasonRow) : ℚ :=
  let avs := (fit_rows g).map (fun x => x.last_season_av.getD 0)
  let ovs := (fit_rows g).map (fun x => x.madden "overallrating")
  clip3 (list_mean [minmax_standardize avs (r.last_season_av.getD 0)]
         - minmax_standardize ovs (r.madden "overallrating"))

/-- group_df[f] = (madden_adjustment + group_df[f]).clip(lower=5, upper=99)
for every Madden feature column (player.py lines 312-313). -/
def apply_madden_adjustment (adjv : ℚ) (r : PreseasonRow) : PreseasonRow :=
  { r with madden := fun f =>
      if f ∈ MADDEN_FEATURES then min 99 (max 5 (adjv + r.madden f))
      else r.madden f }

/-- _simple_adjust_preseason_ratings (player.py lines 278-317), which
adjust_preseason_ratings delegates to (line 335).  Only the quarterback
group is processed (and returned); rookies get adjustment 0, non-rookies
without last_season_av get -0.5, the rest the cohort-standardized
difference; each sub-frame keeps its row order and the three are
concatenated in that order. -/
def simple_adjust_preseason_ratings (rows : List PreseasonRow) :
    List PreseasonRow :=
  let g := rows.filter (fun r => r.position_group == "quarterback")
  let rookies := g.filter (fun r => r.is_rookie)
  let unfit := g.filter (fun r => !r.is_rookie && r.last_season_av.isNone)
  let fit := g.filter (fun r => !r.is_rookie && r.last_season_av.isSome)
  rookies.map (fun r => apply_madden_adjustment 0 r)
    ++ unfit.map (fun r => apply_madden_adjustment (-(1/2)) r)
    ++ fit.map (fun r => apply_madden_adjustment (preseason_adjustment g r) r)

/-! ## Base-rating imputation (rating.py lines 428-468)
A batch is a Table: a row count and named nullable columns. -/

structure Table where
  nrows : ℕ := 0
  cols : List (String × List (Option ℚ)) := []

def table_lookup (t : Table) (c : String) : Option (List (Option ℚ)) :=
  (t.cols.find? (fun p => p.1 == c)).map (fun p => p.2)

/-- impute_df[c].isnull().sum() for one column. -/
def null_count (t : Table) (c : String) : ℕ :=
  ((table_lookup t c).getD []).countP (fun v => v.isNone)

def GENERAL_FEATURES : List String :=
  ["forty", "bench", "vertical", "broad_jump", "cone", "shuttle",
   "last_season_av"]

def GENERAL_HELPER_FEATURES : List String :=
  ["height", "weight", "years_exp", "draft_year", "draft_pick", "is_rookie"]

def allowed_impute_cols (pos_group_features : List String) : List String :=
  GENERAL_FEATURES ++ MADDEN_FEATURES ++ pos_group_features

/-- cols_with_missing (rating.py lines 453-454): the allowed columns with
at least one null and whose null count differs from the row count. -/
def cols_with_missing (t : Table) (allowed : List String) : List String :=
  allowed.filter (fun c =>
    (null_count t c != 0) && (null_count t c != t.nrows))

/-- PlayerRatingComponent.impute_base_player_ratings (rating.py lines
428-468).  The sklearn IterativeImputer(random_state=0).fit_transform call
is external library code, modelled as the parameter impute_fn; its output
array is relabelled with the submitted column names (cols_with_missing
followed by the helper features), the helper columns are dropped, and the
imputed columns are concatenated after the columns kept from the input
(the input minus cols_with_missing). -/
def impute_base_player_ratings
    (impute_fn : List (String × List (Option ℚ)) → List (List ℚ))
    (t : Table) (pos_group_features : List String) : Table :=
  let allowed := allowed_impute_cols pos_group_features
  let cwm := cols_with_missing t allowed
  let kept := t.cols.filter (fun p => !cwm.contains p.1)
  let submitted := (cwm ++ GENERAL_HELPER_FEATURES).map
    (fun c => (c, (table_lookup t c).getD []))
  let labelled := (cwm ++ GENERAL_HELPER_FEATURES).zip (impute_fn submitted)
  let imputed := labelled.filter
    (fun p => !GENERAL_HELPER_FEATURES.contains p.1)
  { nrows := t.nrows, cols := kept ++ imputed.map (fun p => (p.1, p.2.map some)) }

/-! ## Concrete instances used in the theorems below -/

/-- A pre-rating whose attributes are all 50. -/
def c1_pre : PlayerRatingState := { player_id := "p1", vals := fun _ => 50 }

/-- A post-rating whose attributes are all 60. -/
def c1_post : PlayerRatingState := { player_id := "p1", vals := fun _ => 60 }

/-- A weekly rating whose post_rating differs from its pre_rating. -/
def c1_weekly : WeeklyPlayerRating :=
  { player_id := "p1", position := "QB", pre_rating := c1_pre,
    post_rating := some c1_post }

/-- A career with one completed weekly rating. -/
def c1_career : CareerPlayerRating :=
  { player_id := "p1", weekly_player_ratings := [c1_weekly],
    init_player_rating_state := some c1_pre }

/-- A one-player season view with one z-scored stat column. -/
def c2_season : Frame :=
  ⟨["player_id", "season_avg_completion_percentage"],
   [fun c => if c = "season_avg_completion_percentage" then 1 else 0]⟩

/-- A quarterback rating matrix over that view, empty form view. -/
def c2_matrix : PlayerPositionGroupRatingMatrix :=
  { position_group := "quarterback",
    validation_requirement := [("pass_attempts", 5)],
    rating_attribute_stat_map := [("throwaccuracyshort", ["completion_percentage"])],
    season_metrics := c2_season }

/-- The same matrix with a different form view. -/
def c2_matrix_other_form : PlayerPositionGroupRatingMatrix :=
  { c2_matrix with form_metrics := ⟨["form_completion_percentage"], [fun _ => 7]⟩ }

/-- A one-player pre-ratings frame. -/
def c2_pre : Frame := ⟨["player_id", "throwaccuracyshort"], [fun _ => 70]⟩

/-- A default pre-rating (dataclass defaults). -/
def c3_pre : PlayerRatingState := { player_id := "p1" }

/-- A quarterback week with no performance metrics and no rating matrix. -/
def c3_qb_week : WeeklyPlayerRating :=
  { player_id := "p1", position := "QB", pre_rating := c3_pre }

/-- A week for a position with no weight table, no metrics, no matrix. -/
def c3_k_week : WeeklyPlayerRating :=
  { player_id := "p1", position := "K", pre_rating := c3_pre }

/-- A week for a position with no weight table, one mapped metric present,
no rating matrix. -/
def c5_week : WeeklyPlayerRating :=
  { player_id := "p1", position := "K", pre_rating := c3_pre,
    performance_metrics := [("epa", 1)] }

/-- The post-rating the weekly update produces on c5_week. -/
def c5_post : PlayerRatingState :=
  match apply_weekly c5_week with
  | Except.ok p => p
  | Except.error _ => c3_pre

/-- A rookie quarterback preseason row whose Madden columns are all 2. -/
def c8_row : PreseasonRow :=
  { position_group := "quarterback", is_rookie := true, madden := fun _ => 2 }

/-- A batch with one all-null allowed column (forty), one partially
observed allowed column (bench) and one helper column (height). -/
def c9_table : Table :=
  { nrows := 2,
    cols := [("forty", [none, none]), ("bench", [some 1, none]),
             ("height", [some 70, some 71])] }

/-- A deterministic stand-in for the imputation call: fill nulls with 0. -/
def c9_fill : List (String × List (Option ℚ)) → List (List ℚ) :=
  fun sub => sub.map (fun p => p.2.map (fun v => v.getD 0))

/-! ## Theorems -/

/-- C1.  The claim says the weekly update of a continuing player uses
current_rating().post_rating as the new pre-rating.  The code
(rating.py line 220) reads current_rating.pre_rating instead: on a career
whose only weekly rating moved every attribute from 50 to 60, the
selected pre-rating is the old pre-rating (50s), not the post-rating
(60s), so the computed post-rating of the previous week is discarded. -/
theorem run_pipeline_pre_rating_reads_pre_not_post :
    select_pre_rating c1_career = some c1_pre ∧
    c1_weekly.post_rating = some c1_post ∧
    select_pre_rating c1_career ≠ some c1_post := by
  refine ⟨rfl, rfl, fun h => ?_⟩
  have h2 := Option.some.inj h
  have h3 := congrArg (fun s => s.vals "agility") h2
  simp only [c1_weekly, c1_pre, c1_post] at h3
  norm_num at h3

/-- C2.  compute_attribute_deltas raises TypeError on every call: its
first statement passes the keyword argument which to
_compute_attribute_deltas, whose signature has no such parameter; no
season/form blend is ever computed.  Moreover the helper itself reads
only the season view: its result is unchanged when the form view
changes. -/
theorem compute_attribute_deltas_raises_typeerror :
    compute_attribute_deltas c2_matrix c2_pre (2/5) =
      Except.error "TypeError: unexpected keyword argument which" ∧
    compute_attribute_deltas_inner c2_matrix c2_pre =
      compute_attribute_deltas_inner c2_matrix_other_form c2_pre :=
  ⟨rfl, rfl⟩

/-- C3.  The claim says an update with empty performance_metrics or an
absent rating matrix is a no-op.  For a quarterback (a position with a
weight table) apply() instead raises TypeError: _apply_adjustments writes
new_vals[overallrating], a key the PlayerRatingState dataclass does not
accept.  Only for a position outside the weight tables is the update the
claimed no-op. -/
theorem apply_weekly_empty_metrics_not_noop :
    apply_weekly c3_qb_week =
      Except.error "TypeError: unexpected keyword argument overallrating" ∧
    apply_weekly c3_k_week = Except.ok c3_pre :=
  ⟨rfl, rfl⟩

/-- C7.  The weekly base adjustment equals sign(s) * min(3, abs(s*10)),
its magnitude never exceeds MAX_WEEKLY_ADJ = 3, and cohort_score 0.5
saturates to 3. -/
theorem base_adjustment_spec :
    (∀ s : ℚ, base_adjustment s = npSign s * min 3 |s * 10| ∧
      |base_adjustment s| ≤ 3) ∧
    base_adjustment (1/2) = 3 := by
  constructor
  · intro s
    constructor
    · simp only [base_adjustment, MAX_WEEKLY_ADJ, abs_mul]
      norm_num
    · have hmin : 0 ≤ min MAX_WEEKLY_ADJ (|s| * 10) := by
        have : (0:ℚ) ≤ |s| * 10 := by positivity
        simp only [MAX_WEEKLY_ADJ]
        exact le_min (by norm_num) this
      have hle : min MAX_WEEKLY_ADJ (|s| * 10) ≤ 3 := by
        simp only [MAX_WEEKLY_ADJ]
        exact min_le_left _ _
      have hsign : |npSign s| ≤ 1 := by
        unfold npSign
        split <;> try split
        all_goals norm_num
      calc |base_adjustment s|
          = |npSign s| * |min MAX_WEEKLY_ADJ (|s| * 10)| := abs_mul _ _
        _ ≤ 1 * |min MAX_WEEKLY_ADJ (|s| * 10)| := by
              apply mul_le_mul_of_nonneg_right hsign (abs_nonneg _)
        _ = min MAX_WEEKLY_ADJ (|s| * 10) := by
              rw [one_mul, abs_of_nonneg hmin]
        _ ≤ 3 := hle
  · unfold base_adjustment npSign MAX_WEEKLY_ADJ
    rw [if_pos (by norm_num : (0:ℚ) < 1/2)]
    rw [abs_of_pos (by norm_num : (0:ℚ) < 1/2)]
    rw [min_eq_left (by norm_num : (3:ℚ) ≤ 1/2 * 10)]
    norm_num

/-! Helper lemmas about the clipped truncation. -/

theorem pyInt_of_nonneg {q : ℚ} (h : 0 ≤ q) : pyInt q = ⌊q⌋ := by
  unfold pyInt
  exact if_pos h

theorem npClip_nonneg (x : ℚ) : 0 ≤ npClip x 0 99 :=
  le_min (by norm_num) (le_max_left 0 x)

theorem npClip_le99 (x : ℚ) : npClip x 0 99 ≤ 99 := min_le_left _ _

theorem new_value_eq_floor (a : String) (c d : ℚ) :
    new_value a c d = ⌊npClip (c + applied_change a d) 0 99⌋ :=
  pyInt_of_nonneg (npClip_nonneg _)

theorem bucket_of_mem_physical {a : String} (h : a ∈ physical_bucket) :
    attribute_bucket_of a = "physical" := by
  unfold attribute_bucket_of
  rw [if_pos h]

theorem bucket_of_mem_technical {a : String} (h : a ∈ technical_bucket) :
    attribute_bucket_of a = "technical" := by
  fin_cases h <;> rfl

theorem bucket_of_mem_mental {a : String} (h : a ∈ mental_bucket) :
    attribute_bucket_of a = "mental" := by
  fin_cases h <;> rfl

theorem bucket_of_unmapped {a : String} (h1 : a ∉ physical_bucket)
    (h2 : a ∉ technical_bucket) (h3 : a ∉ mental_bucket) :
    attribute_bucket_of a = "technical" := by
  unfold attribute_bucket_of
  rw [if_neg h1, if_neg h2, if_neg h3]

/-- C4 counterexample.  The claim says the new stored value is
clip(c + d*(1-decay), 0, 99) rounded to the NEAREST integer.  For the
technical attribute throwpower with current value 70 and raw delta 4 the
clipped value is 70.6: rounding to nearest gives 71, but the code stores
int(70.6) = 70 (Python int() truncates). -/
theorem weekly_update_truncates_not_rounds :
    new_value "throwpower" 70 4 = 70 ∧
    round (npClip ((70:ℚ) + 4 * (1 - 85/100)) 0 99) = 71 ∧
    (70:ℤ) ≠ 71 := by
  refine ⟨?_, ?_, by norm_num⟩
  · rw [new_value_eq_floor]
    unfold applied_change
    rw [bucket_of_mem_technical (by decide),
        show decay_by_bucket "technical" = 85/100 from rfl]
    norm_num [npClip, min_def, max_def]
  · norm_num [npClip, min_def, max_def, round_eq]

/-- C4 amended.  Decay factors per bucket are as claimed (physical 0.05,
technical 0.15, mental 0.10, unmapped attributes defaulting to
technical), but the stored value is the clipped value truncated
(floored), not rounded to the nearest integer. -/
theorem weekly_decay_applies_truncated (c d : ℚ) (a : String) :
    (a ∈ physical_bucket → new_value a c d = ⌊npClip (c + d * (5/100)) 0 99⌋) ∧
    (a ∈ technical_bucket → new_value a c d = ⌊npClip (c + d * (15/100)) 0 99⌋) ∧
    (a ∈ mental_bucket → new_value a c d = ⌊npClip (c + d * (10/100)) 0 99⌋) ∧
    (a ∉ physical_bucket → a ∉ technical_bucket → a ∉ mental_bucket →
      new_value a c d = ⌊npClip (c + d * (15/100)) 0 99⌋) := by
  have hphys : (1:ℚ) - 95/100 = 5/100 := by norm_num
  have htech : (1:ℚ) - 85/100 = 15/100 := by norm_num
  have hment : (1:ℚ) - 90/100 = 10/100 := by norm_num
  refine ⟨fun h => ?_, fun h => ?_, fun h => ?_, fun h1 h2 h3 => ?_⟩
  · rw [new_value_eq_floor]
    unfold applied_change
    rw [bucket_of_mem_physical h,
        show decay_by_bucket "physical" = 95/100 from rfl, hphys]
  · rw [new_value_eq_floor]
    unfold applied_change
    rw [bucket_of_mem_technical h,
        show decay_by_bucket "technical" = 85/100 from rfl, htech]
  · rw [new_value_eq_floor]
    unfold applied_change
    rw [bucket_of_mem_mental h,
        show decay_by_bucket "mental" = 90/100 from rfl, hment]
  · rw [new_value_eq_floor]
    unfold applied_change
    rw [bucket_of_unmapped h1 h2 h3,
        show decay_by_bucket "technical" = 85/100 from rfl, htech]

/-- C4 witness: the physical attribute speed with current value 70 and
raw delta 4. -/
theorem weekly_decay_applies_truncated_witness :
    "speed" ∈ physical_bucket ∧
    new_value "speed" 70 4 = ⌊npClip ((70:ℚ) + 4 * (5/100)) 0 99⌋ :=
  ⟨by decide, (weekly_decay_applies_truncated 70 4 "speed").1 (by decide)⟩

/-- Every value the update loop stores lies in [0, 99]. -/
theorem new_value_bounds (a : String) (c d : ℚ) :
    0 ≤ new_value a c d ∧ new_value a c d ≤ 99 := by
  rw [new_value_eq_floor]
  constructor
  · exact Int.le_floor.mpr (by exact_mod_cast npClip_nonneg _)
  · have h := Int.floor_le_floor (npClip_le99 (c + applied_change a d))
    simpa using h

/-- The attribute loop of _apply_adjustments preserves the bounds
invariant on the skill fields. -/
theorem apply_adjustments_loop_bounds (pre : PlayerRatingState)
    (adj : List (String × ℚ)) :
    ∀ st st2 : PlayerRatingState,
      (∀ a ∈ madden_skill_fields, 0 ≤ st.vals a ∧ st.vals a ≤ 99) →
      apply_adjustments_loop pre st adj = Except.ok st2 →
      ∀ a ∈ madden_skill_fields, 0 ≤ st2.vals a ∧ st2.vals a ≤ 99 := by
  induction adj with
  | nil =>
      intro st st2 hst hok
      simp only [apply_adjustments_loop] at hok
      cases hok
      exact hst
  | cons p rest ih =>
      intro st st2 hst hok
      obtain ⟨a, delta⟩ := p
      simp only [apply_adjustments_loop] at hok
      cases hga : get_attr pre a with
      | none => rw [hga] at hok; cases hok
      | some cur =>
          rw [hga] at hok
          refine ih _ st2 ?_ hok
          intro b hb
          simp only [set_attr]
          by_cases hba : b = a
          · rw [if_pos hba]
            have hb2 := new_value_bounds a cur delta
            exact ⟨by exact_mod_cast hb2.1, by exact_mod_cast hb2.2⟩
          · rw [if_neg hba]
            exact hst b hb

/-- C5.  Whenever the weekly update produces a post-rating from a
pre-rating whose skill attributes all lie in [0, 99], every skill
attribute of the post-rating lies in [0, 99]: adjusted attributes are
clipped into [0, 99] before storage and unadjusted attributes are copied
unchanged. -/
theorem weekly_update_preserves_bounds (w : WeeklyPlayerRating)
    (post : PlayerRatingState)
    (hpre : ∀ a ∈ madden_skill_fields,
      0 ≤ w.pre_rating.vals a ∧ w.pre_rating.vals a ≤ 99)
    (hok : apply_weekly w = Except.ok post) :
    ∀ a ∈ madden_skill_fields, 0 ≤ post.vals a ∧ post.vals a ≤ 99 := by
  unfold apply_weekly apply_adjustments at hok
  cases hloop : apply_adjustments_loop w.pre_rating w.pre_rating
      (calculate_adjustments w) with
  | error e => rw [hloop] at hok; cases hok
  | ok st =>
      rw [hloop] at hok
      have hok2 : (if position_weights w.position = [] then Except.ok st
          else (Except.error "TypeError: unexpected keyword argument overallrating" :
            Except String PlayerRatingState)) = Except.ok post := hok
      by_cases hw : position_weights w.position = []
      · rw [if_pos hw] at hok2
        cases hok2
        exact apply_adjustments_loop_bounds w.pre_rating
          (calculate_adjustments w) w.pre_rating _ hpre hloop
      · rw [if_neg hw] at hok2
        cases hok2

/-- C5 witness: a concrete successful weekly update (position K, one
mapped metric, no rating matrix) starting from the dataclass defaults. -/
theorem weekly_update_preserves_bounds_witness :
    (∀ a ∈ madden_skill_fields,
      0 ≤ c5_week.pre_rating.vals a ∧ c5_week.pre_rating.vals a ≤ 99) ∧
    (∀ a ∈ madden_skill_fields, 0 ≤ c5_post.vals a ∧ c5_post.vals a ≤ 99) := by
  have hpre : ∀ a ∈ madden_skill_fields,
      0 ≤ c5_week.pre_rating.vals a ∧ c5_week.pre_rating.vals a ≤ 99 := by
    intro a _
    simp only [c5_week, c3_pre, player_rating_default]
    split <;> norm_num
  exact ⟨hpre, weekly_update_preserves_bounds c5_week c5_post hpre rfl⟩

/-! Helper lemmas for cohorts whose values are all identical. -/

theorem list_sum_all_eq {xs : List ℚ} {c : ℚ} (h : ∀ y ∈ xs, y = c) :
    xs.sum = xs.length * c := by
  induction xs with
  | nil => simp
  | cons x t ih =>
      have hx : x = c := h x (by simp)
      have ht : ∀ y ∈ t, y = c := fun y hy => h y (by simp [hy])
      simp [hx, ih ht]
      ring

theorem list_mean_all_eq {xs : List ℚ} {c : ℚ} (h : ∀ y ∈ xs, y = c)
    (hne : xs ≠ []) : list_mean xs = c := by
  unfold list_mean
  rw [list_sum_all_eq h]
  have hlen : (xs.length : ℚ) ≠ 0 := by
    have := List.length_pos.mpr hne
    positivity
  field_simp

theorem pop_var_all_eq {xs : List ℚ} {c : ℚ} (h : ∀ y ∈ xs, y = c) :
    pop_var xs = 0 := by
  cases hxs : xs with
  | nil => simp [pop_var]
  | cons x t =>
      rw [← hxs]
      have hmean : list_mean xs = c :=
        list_mean_all_eq h (by rw [hxs]; exact List.cons_ne_nil x t)
      unfold pop_var
      have hz : (xs.map (fun y => (y - list_mean xs)^2)).sum = 0 := by
        apply List.sum_eq_zero
        intro z hz
        obtain ⟨y, hy, rfl⟩ := List.mem_map.mp hz
        rw [h y hy, hmean]
        ring
      rw [hz]
      simp

theorem pop_std_all_eq {xs : List ℚ} {c : ℚ} (h : ∀ y ∈ xs, y = c) :
    pop_std xs = 0 := by
  unfold pop_std
  rw [pop_var_all_eq h]
  simp

/-- C6.  Cohort normalization: the negative direction is exactly the
negation of the positive direction on the same raw inputs; a cohort whose
values are all identical (std 0) gets z = 0 for every player; and with
nonzero std the z-scores are (x - mean)/std with the population std
(divisor N, not N-1). -/
theorem zscore_normalization_spec (xs : List ℚ) (c : ℚ) (direction : String) :
    zscore_adjust_column "negative" xs =
      (zscore_adjust_column "positive" xs).map (fun v => -v) ∧
    ((∀ y ∈ xs, y = c) →
      zscore_adjust_column direction xs = xs.map (fun _ => 0)) ∧
    (pop_std xs ≠ 0 →
      zscore_adjust_column "positive" xs =
        xs.map (fun x => (Rat.cast x - Rat.cast (list_mean xs)) /
          Real.sqrt (Rat.cast ((xs.map (fun y => (y - list_mean xs)^2)).sum /
            xs.length)))) := by
  refine ⟨rfl, fun h => ?_, fun hs => ?_⟩
  · have hstd : pop_std xs = 0 := pop_std_all_eq h
    simp only [zscore_adjust_column, hstd, if_true, eq_self_iff_true]
    split
    · simp
    · rfl
  · simp only [zscore_adjust_column]
    rw [if_neg hs, if_neg (by decide : ¬("positive" = "negative"))]
    simp only [pop_std, pop_var]

/-- C6 witness: a cohort of three identical values 3 gets z = 0 for
every player. -/
theorem zscore_normalization_spec_witness :
    (∀ y ∈ ([3, 3, 3] : List ℚ), y = 3) ∧
    zscore_adjust_column "positive" [3, 3, 3] =
      ([3, 3, 3] : List ℚ).map (fun _ => 0) := by
  have h : ∀ y ∈ ([3, 3, 3] : List ℚ), y = 3 := by
    intro y hy
    simp only [List.mem_cons, List.not_mem_nil, or_false] at hy
    rcases hy with h1 | h1 | h1 <;> exact h1
  exact ⟨h, (zscore_normalization_spec [3, 3, 3] 3 "positive").2.1 h⟩

/-! Helper lemmas for validation idempotence. -/

theorem apply_validation_view_cols (req : List (String × ℚ)) (pfx : String) :
    ∀ f : Frame, (apply_validation_view req pfx f).cols = f.cols := by
  induction req with
  | nil => intro f; rfl
  | cons p t ih =>
      intro f
      unfold apply_validation_view at ih ⊢
      rw [List.foldl_cons]
      rw [ih]
      split <;> rfl

theorem apply_validation_view_rows (req : List (String × ℚ)) (pfx : String) :
    ∀ f : Frame, (apply_validation_view req pfx f).rows =
      f.rows.filter (valid_pred req pfx f.cols) := by
  induction req with
  | nil =>
      intro f
      show f.rows = f.rows.filter (valid_pred [] pfx f.cols)
      have h : valid_pred [] pfx f.cols = fun _ => true := rfl
      rw [h, List.filter_true]
  | cons p t ih =>
      intro f
      unfold apply_validation_view at ih ⊢
      rw [List.foldl_cons]
      by_cases hc : (pfx ++ p.1) ∈ f.cols
      · rw [if_pos hc]
        rw [ih ⟨f.cols, f.rows.filter (fun r => !decide (r (pfx ++ p.1) < p.2))⟩]
        rw [List.filter_filter]
        congr 1
        funext r
        simp only [valid_pred, List.all_cons, if_pos hc]
        rw [Bool.and_comm]
      · rw [if_neg hc]
        rw [ih f]
        congr 1
        funext r
        simp only [valid_pred, List.all_cons, if_neg hc, Bool.true_and]

theorem apply_validation_view_idem (req : List (String × ℚ)) (pfx : String)
    (f : Frame) :
    apply_validation_view req pfx (apply_validation_view req pfx f) =
      apply_validation_view req pfx f := by
  apply Frame.ext
  · rw [apply_validation_view_cols, apply_validation_view_cols]
  · rw [apply_validation_view_rows, apply_validation_view_rows,
        apply_validation_view_cols, List.filter_filter]
    congr 1
    funext r
    exact Bool.and_self _

/-- C10.  Validation is idempotent: applying _apply_validation twice with
the same thresholds gives exactly the state after one application, on
both the season view and the form view (no further row drops). -/
theorem validation_idempotent (m : PlayerPositionGroupRatingMatrix) :
    apply_validation (apply_validation m) = apply_validation m := by
  unfold apply_validation
  dsimp only
  rw [apply_validation_view_idem, apply_validation_view_idem]

/-- C8 counterexample.  The claim says the preseason adjustment result is
clipped within [0, 99].  The code clips into [5, 99]: a rookie
quarterback (adjustment 0) with every Madden column at 2 comes out with
value 5, while clipping 0 + 2 into [0, 99] gives 2. -/
theorem preseason_clip_counterexample :
    (simple_adjust_preseason_ratings [c8_row]).map
      (fun r => r.madden "speed") = [5] ∧
    npClip ((0:ℚ) + 2) 0 99 = 2 ∧
    (5:ℚ) ≠ 2 := by
  refine ⟨?_, by norm_num [npClip, min_def, max_def], by norm_num⟩
  norm_num [simple_adjust_preseason_ratings, c8_row, apply_madden_adjustment,
    MADDEN_FEATURES, min_def, max_def]

/-- C8 amended.  Preseason regression-to-mean: rookies get adjustment 0,
non-rookies without a last-season av get -0.5, all others get
clip(mean standardized features - standardized overall, -3, 3); the
adjustment is added to every Madden-style attribute and the result is
clipped within [5, 99] (not [0, 99]). -/
theorem preseason_adjust_spec (rows : List PreseasonRow) (r : PreseasonRow)
    (hr : r ∈ rows) (hqb : r.position_group = "quarterback") :
    ∃ r2 ∈ simple_adjust_preseason_ratings rows,
      ∀ f ∈ MADDEN_FEATURES,
        r2.madden f = min 99 (max 5 (
          (if r.is_rookie then 0
           else if r.last_season_av = none then -(1/2)
           else preseason_adjustment
             (rows.filter (fun x => x.position_group == "quarterback")) r)
          + r.madden f)) := by
  have hg : r ∈ rows.filter (fun x => x.position_group == "quarterback") :=
    List.mem_filter.mpr ⟨hr, by simp [hqb]⟩
  have key : ∀ A : ℚ, ∀ f ∈ MADDEN_FEATURES,
      (apply_madden_adjustment A r).madden f = min 99 (max 5 (A + r.madden f)) := by
    intro A f hf
    simp only [apply_madden_adjustment]
    rw [if_pos hf]
  simp only [simple_adjust_preseason_ratings]
  by_cases h1 : r.is_rookie
  · refine ⟨apply_madden_adjustment 0 r, ?_, ?_⟩
    · apply List.mem_append_left
      apply List.mem_append_left
      exact List.mem_map_of_mem _ (List.mem_filter.mpr ⟨hg, h1⟩)
    · intro f hf
      rw [key 0 f hf, if_pos h1]
  · by_cases h2 : r.last_season_av = none
    · refine ⟨apply_madden_adjustment (-(1/2)) r, ?_, ?_⟩
      · apply List.mem_append_left
        apply List.mem_append_right
        refine List.mem_map_of_mem _ (List.mem_filter.mpr ⟨hg, ?_⟩)
        simp [h1, h2]
      · intro f hf
        rw [key (-(1/2)) f hf, if_neg h1, if_pos h2]
    · refine ⟨apply_madden_adjustment (preseason_adjustment
        (rows.filter (fun x => x.position_group == "quarterback")) r) r, ?_, ?_⟩
      · apply List.mem_append_right
        refine List.mem_map_of_mem _ (List.mem_filter.mpr ⟨hg, ?_⟩)
        simp [h1, Option.isSome_iff_ne_none, h2]
      · intro f hf
        rw [key _ f hf, if_neg h1, if_neg h2]

/-- C8 witness: the rookie row of the counterexample cohort. -/
theorem preseason_adjust_spec_witness :
    c8_row ∈ [c8_row] ∧ c8_row.position_group = "quarterback" ∧
    ∃ r2 ∈ simple_adjust_preseason_ratings [c8_row],
      ∀ f ∈ MADDEN_FEATURES,
        r2.madden f = min 99 (max 5 (
          (if c8_row.is_rookie then 0
           else if c8_row.last_season_av = none then -(1/2)
           else preseason_adjustment
             ([c8_row].filter (fun x => x.position_group == "quarterback")) c8_row)
          + c8_row.madden f)) :=
  ⟨by simp, rfl, preseason_adjust_spec [c8_row] c8_row (by simp) rfl⟩

/-! Helper lemmas about lookups in filtered and appended column lists. -/

theorem find_filter_keep {α : Type} (p q : α → Bool) (l : List α)
    (h : ∀ x, q x = true → p x = true) :
    (l.filter p).find? q = l.find? q := by
  induction l with
  | nil => rfl
  | cons a t ih =>
      by_cases hpa : p a
      · rw [List.filter_cons_of_pos hpa]
        by_cases hqa : q a
        · rw [List.find?_cons_of_pos _ hqa, List.find?_cons_of_pos _ hqa]
        · rw [List.find?_cons_of_neg _ (by simpa using hqa),
              List.find?_cons_of_neg _ (by simpa using hqa)]
          exact ih
      · rw [List.filter_cons_of_neg hpa]
        have hqa : q a = false := by
          cases hqa2 : q a
          · rfl
          · exact absurd (h a hqa2) (by simpa using hpa)
        rw [List.find?_cons_of_neg _ (by simp [hqa])]
        exact ih

theorem find_append_of_some {α : Type} {l1 : List α} (l2 : List α)
    (p : α → Bool) {x : α} (h : l1.find? p = some x) :
    (l1 ++ l2).find? p = some x := by
  induction l1 with
  | nil => cases h
  | cons a t ih =>
      by_cases hpa : p a
      · rw [List.find?_cons_of_pos _ hpa] at h
        rw [List.cons_append, List.find?_cons_of_pos _ hpa]
        exact h
      · rw [List.find?_cons_of_neg _ (by simpa using hpa)] at h
        rw [List.cons_append, List.find?_cons_of_neg _ (by simpa using hpa)]
        exact ih h

/-- C9 amended.  Only allowed columns with at least one missing and at
least one observed value are submitted to imputation; an all-null column
is excluded from the submitted set, but it is NOT dropped: it passes
through to the output unchanged, nulls intact. -/
theorem impute_excludes_but_keeps_all_null
    (impute_fn : List (String × List (Option ℚ)) → List (List ℚ))
    (t : Table) (pos_group_features : List String) (c : String)
    (col : List (Option ℚ))
    (_hc : c ∈ allowed_impute_cols pos_group_features)
    (hcol : table_lookup t c = some col)
    (hall : ∀ v ∈ col, v = none)
    (hlen : col.length = t.nrows) :
    (∀ c2 ∈ cols_with_missing t (allowed_impute_cols pos_group_features),
      0 < null_count t c2 ∧ null_count t c2 ≠ t.nrows) ∧
    c ∉ cols_with_missing t (allowed_impute_cols pos_group_features) ∧
    table_lookup (impute_base_player_ratings impute_fn t pos_group_features) c
      = some col := by
  have hnc : null_count t c = t.nrows := by
    unfold null_count
    rw [hcol]
    show col.countP (fun v => v.isNone) = t.nrows
    rw [← hlen]
    apply List.countP_eq_length.mpr
    intro v hv
    rw [hall v hv]
    rfl
  have hpart1 : ∀ c2 ∈ cols_with_missing t (allowed_impute_cols pos_group_features),
      0 < null_count t c2 ∧ null_count t c2 ≠ t.nrows := by
    intro c2 hc2
    obtain ⟨-, hb⟩ := List.mem_filter.mp hc2
    simp only [Bool.and_eq_true, bne_iff_ne, ne_eq] at hb
    exact ⟨Nat.pos_of_ne_zero hb.1, hb.2⟩
  have hnotin : c ∉ cols_with_missing t (allowed_impute_cols pos_group_features) := by
    intro hmem
    obtain ⟨-, hb⟩ := List.mem_filter.mp hmem
    rw [hnc] at hb
    simp at hb
  refine ⟨hpart1, hnotin, ?_⟩
  unfold impute_base_player_ratings table_lookup
  obtain ⟨pr, hfind, hpr⟩ : ∃ pr, t.cols.find? (fun p => p.1 == c) = some pr ∧
      pr.2 = col := by
    unfold table_lookup at hcol
    cases hf : t.cols.find? (fun p => p.1 == c) with
    | none => rw [hf] at hcol; cases hcol
    | some pr =>
        rw [hf] at hcol
        exact ⟨pr, rfl, Option.some.inj hcol⟩
  have hkeep : ((t.cols.filter (fun p =>
      !(cols_with_missing t (allowed_impute_cols pos_group_features)).contains p.1)).find?
        (fun p => p.1 == c)) = some pr := by
    rw [find_filter_keep _ _ _ ?_]
    · exact hfind
    · intro x hx
      have hxc : x.1 = c := by simpa using hx
      rw [hxc]
      simp only [Bool.not_eq_eq_eq_not, Bool.not_true]
      ·
        cases hcon : (cols_with_missing t (allowed_impute_cols pos_group_features)).contains c
        · rfl
        · exact absurd (by simpa using hcon) hnotin
  rw [find_append_of_some _ _ hkeep]
  simp [hpr]

/-- C9 counterexample.  The claim says an all-null column is dropped
before imputation proceeds.  On a batch whose allowed column forty is
entirely null, the output still contains forty, still entirely null: the
column is excluded from imputation but not dropped. -/
theorem impute_all_null_column_not_dropped :
    table_lookup (impute_base_player_ratings c9_fill c9_table []) "forty"
      = some [none, none] ∧
    (some [none, none] : Option (List (Option ℚ))) ≠ none := by
  exact ⟨rfl, by simp⟩

/-- C9 witness: the all-null column forty of the two-row batch. -/
theorem impute_excludes_but_keeps_all_null_witness :
    ("forty" ∈ allowed_impute_cols []) ∧
    table_lookup c9_table "forty" = some [none, none] ∧
    (∀ v ∈ ([none, none] : List (Option ℚ)), v = none) ∧
    ([none, none] : List (Option ℚ)).length = c9_table.nrows ∧
    ((∀ c2 ∈ cols_with_missing c9_table (allowed_impute_cols []),
      0 < null_count c9_table c2 ∧ null_count c9_table c2 ≠ c9_table.nrows) ∧
    "forty" ∉ cols_with_missing c9_table (allowed_impute_cols []) ∧
    table_lookup (impute_base_player_ratings c9_fill c9_table []) "forty"
      = some [none, none]) :=
  ⟨by decide, rfl, by decide, rfl,
    impute_excludes_but_keeps_all_null c9_fill c9_table [] "forty" [none, none]
      (by decide) rfl (by decide) rfl⟩
